import Mathlib

/-
Verification of the dam-load computation library (Japanese standard).
The definitions below are a shallow embedding of the Python sources:
  damload/side_prs.py    -- slope derivation, Zanger dynamic pressure, static and mud pressure
  damload/buoyancy.py    -- piecewise-linear uplift profile
  damload/dam_cls.py     -- the DamLoadEngine (class Dam) orchestration
  damload/DamClass.py    -- the legacy Dam class
Floating-point values are modelled as exact rationals where the code only
performs field operations, and as real numbers where sqrt, sin, cos or
arctan appear.
-/

/-- Embedding of np.diff: successive differences a[i+1] - a[i]. -/
def npDiff {A : Type} [Sub A] (l : List A) : List A :=
  List.zipWith (fun a b => b - a) l l.tail

/-- Embedding of np.linspace(a, b, num): num evenly spaced samples from a to b
(endpoints included; for num = 1 the single sample is a, as in numpy). -/
def linspace {A : Type} [DivisionRing A] (a b : A) (num : Nat) : List A :=
  (List.range num).map (fun i => a + (b - a) * (i : A) / ((num : A) - 1))

/-- Embedding of scipy.interpolate.interp1d (kind linear) evaluated inside its
domain, for a breakpoint list sorted in ascending order of the first component.
Out-of-domain queries are never performed by the theorems below. -/
def interp1 {A : Type} [LinearOrderedField A] : List (A × A) → A → A
  | [], _ => 0
  | [p], _ => p.2
  | p :: q :: rest, t =>
    if t ≤ q.1 then p.2 + (t - p.1) * (q.2 - p.2) / (q.1 - p.1)
    else interp1 (q :: rest) t

/-- Insert a pair into a list kept ascending in the first component. -/
def insertPair {A B : Type} [LinearOrder A] (p : A × B) : List (A × B) → List (A × B)
  | [] => [p]
  | q :: t => if p.1 ≤ q.1 then p :: q :: t else q :: insertPair p t

/-- Ascending sort by first component; models the internal ascending sort that
interp1d applies to its breakpoints (assume_sorted=False, the default). -/
def sortPairs {A B : Type} [LinearOrder A] (l : List (A × B)) : List (A × B) :=
  l.foldr insertPair []

/-- Source list expr_slant of side_prs.py: slope angles in degrees. -/
def exprSlant : List ℚ := [90, 80, 70, 60, 50, 40, 30, 20, 10, 0]

/-- Source list expr_cm of side_prs.py: Zanger coefficients. The decimal
literals 0.025, 0.125, 0.225, 0.31, 0.4, 0.48, 0.55, 0.62, 0.67, 0.72 are
written as explicit fractions so that kernel evaluation can reduce them. -/
def exprCm : List ℚ :=
  [25/1000, 125/1000, 225/1000, 31/100, 4/10, 48/100, 55/100, 62/100, 67/100, 72/100]

/-- The tabulated (angle, coefficient) pairs in source order. -/
def zangerPoints : List (ℚ × ℚ) := exprSlant.zip exprCm

/-- The breakpoint table after the ascending sort performed by interp1d. -/
def zangerTable : List (ℚ × ℚ) := sortPairs zangerPoints

/-- Embedding of zanger_cm = interp1d(expr_slant, expr_cm) on rational inputs. -/
def zanger_cmQ (t : ℚ) : ℚ := interp1 zangerTable t

/-- The Zanger breakpoint table with real entries. -/
noncomputable def zangerTableR : List (ℝ × ℝ) :=
  zangerTable.map (fun p => ((p.1 : ℝ), (p.2 : ℝ)))

/-- Embedding of zanger_cm = interp1d(expr_slant, expr_cm) on real inputs. -/
noncomputable def zanger_cmR (t : ℝ) : ℝ := interp1 zangerTableR t

/-- Errors the Python code can raise: ValueError and TypeError. -/
inductive DamErr where
  | valueError (msg : String)
  | typeError (msg : String)
deriving DecidableEq

/-- Embedding of np.rad2deg. -/
noncomputable def rad2deg (x : ℝ) : ℝ := x * (180 / Real.pi)

/-- Embedding of np.deg2rad. -/
noncomputable def deg2rad (x : ℝ) : ℝ := x * (Real.pi / 180)

/-- Embedding of cal_slant of side_prs.py: zero vertical runs are replaced by
1e-18, the slope angle is the arctangent of the horizontal over the vertical
run, the last angle is repeated, and the result is converted to degrees.
The final repeated entry models slant[-1], which in the source requires at
least two samples; all theorems below use inputs with at least two samples. -/
noncomputable def cal_slant (x y : List ℝ) : List ℝ :=
  let dy := (npDiff y).map (fun v => if v = 0 then 1e-18 else v)
  let s := List.zipWith (fun a b => Real.arctan (a / b)) (npDiff x) dy
  let s2 := s ++ [s.getLastD 0]
  s2.map rad2deg

/-- Embedding of zanger of side_prs.py (per-sample Zanger dynamic pressure). -/
noncomputable def zanger (cm dep h k w : ℝ) : ℝ :=
  let r1 := dep / h
  let r2 := r1 * (2 - r1)
  let r3 := 0.5 * (r2 + Real.sqrt r2)
  let c_val := cm * r3
  c_val * w * k * h

/-- Embedding of the error discipline of zanger: the source contains no raise
statement and no domain check, so the computation always returns; np.sqrt of a
negative argument yields NaN with a RuntimeWarning instead of an exception. -/
noncomputable def zangerRun (cm dep h k w : ℝ) : Except DamErr ℝ :=
  Except.ok (zanger cm dep h k w)

/-- Embedding of dyn_w of side_prs.py. -/
noncomputable def dyn_w (x y : List ℝ) (h k w : ℝ) : List ℝ :=
  let slant := cal_slant x y
  let cm_val := slant.map zanger_cmR
  let depth := y.map (fun v => h - v)
  List.zipWith (fun c d => zanger c d h k w) cm_val depth

/-- Embedding of stat_w of side_prs.py (hydrostatic pressure, exact in ℚ). -/
def stat_w (y : List ℚ) (h w : ℚ) : List ℚ := y.map (fun v => (h - v) * w)

/-- Embedding of mud of side_prs.py: the function returns one single profile,
the combined magnitude sqrt(pv^2 + ph^2) of the vertical component
pv = w d sin(slant) and the horizontal component ph = ce w d cos(slant).
It has parameters (x, y, h, w, ce) only: no mesh_size parameter exists. -/
noncomputable def mud (x y : List ℝ) (h w ce : ℝ) : List ℝ :=
  let depth := y.map (fun v => h - v)
  let slant := (cal_slant x y).map deg2rad
  List.zipWith
    (fun d t => Real.sqrt ((w * d * Real.sin t)^2 + (ce * w * d * Real.cos t)^2))
    depth slant

/-- Embedding of buoyancy of buoyancy.py: the two lists (dis, pressure) of
control points handed to interp1d. The literal 0.3333 of the source is the
fraction 3333/10000. -/
def buoyancy (hu hd length : ℚ) (locDrain : Option ℚ) (w offset : ℚ) : List ℚ × List ℚ :=
  let pu := hu * w
  let pd := hd * w
  match locDrain with
  | none => ([0, length], [pd + 3333/10000 * offset * (pu - pd), pd])
  | some a => ([0, a, length], [pu, pd + 2/10 * offset * (pu - pd), pd])

/-- The interpolating function returned by buoyancy (interp1d over the control
points), evaluated at a position t. -/
def buoyancyF (hu hd length : ℚ) (locDrain : Option ℚ) (w offset t : ℚ) : ℚ :=
  interp1 ((buoyancy hu hd length locDrain w offset).1.zip
           (buoyancy hu hd length locDrain w offset).2) t

/-- The immutable parameter set stored by Dam.__init__ of dam_cls.py. -/
structure DamSection where
  name : String
  x : List ℚ
  y : List ℚ
  length : ℚ
  locDrain : Option ℚ
  depUp : ℚ
  depDown : ℚ
  depMud : ℚ
  k : ℚ
  w0 : ℚ
  wMud : ℚ
  ce : ℚ

/-- The breakpoints of self.__slope = interp1d(x=self.y, y=self.x): height
keyed, sorted ascending by interp1d. -/
def faceTable (sec : DamSection) : List (ℚ × ℚ) := sortPairs (sec.y.zip sec.x)

/-- Evaluation of self.__slope at a height. -/
def slopeAt (sec : DamSection) (h : ℚ) : ℚ := interp1 (faceTable sec) h

/-- Embedding of Dam.__cal_dyn_water of dam_cls.py: samples y = linspace
(self.y[0], dep_up, num), x = self.__slope(y), and stores
np.array([y, pres]) - the first (position) row is y itself. -/
noncomputable def dynProfile (sec : DamSection) (num : Nat) : List ℚ × List ℝ :=
  let ys := linspace (sec.y.headD 0) sec.depUp num
  let xs := ys.map (slopeAt sec)
  (ys, dyn_w (xs.map (fun q => (q : ℝ))) (ys.map (fun q => (q : ℝ)))
        (sec.depUp : ℝ) (sec.k : ℝ) (sec.w0 : ℝ))

/-- Embedding of Dam.__cal_static_wat of dam_cls.py. The source calls
sp.stat_w(y, self.dep_up) without passing a unit weight, so the default
w = 9.8 is used (written 98/10). -/
def staProfile (sec : DamSection) (num : Nat) : List ℚ × List ℚ :=
  let ys := linspace (sec.y.headD 0) sec.depUp num
  (ys, stat_w ys sec.depUp (98/10))

/-- Embedding of Dam.__cal_buoyancy of dam_cls.py (offset keeps its default
1.1 = 11/10 since cal_load never overrides it). -/
def buoProfile (sec : DamSection) (num : Nat) : List ℚ × List ℚ :=
  let xs := linspace 0 sec.length num
  (xs, xs.map (buoyancyF sec.depUp sec.depDown sec.length sec.locDrain sec.w0 (11/10)))

/-- Depth below the surface of samples at heights ys, for a surface at h. -/
def depthBelowSurface (h : ℚ) (ys : List ℚ) : List ℚ := ys.map (fun v => h - v)

/-- The mutable state of a Dam engine instance: the immutable section
parameters, the stored result slots (all None after construction), and the
names of the files written and plotted so far by the external collaborators. -/
structure DamState where
  sec : DamSection
  dynWat : Option (List ℚ × List ℝ)
  staWat : Option (List ℚ × List ℚ)
  mudPrs : Option (List ℚ × List ℝ × List ℝ)
  buo : Option (List ℚ × List ℚ)
  written : List String
  plotted : List String

/-- The state right after Dam.__init__: all result slots are None. -/
def initState (sec : DamSection) : DamState :=
  { sec := sec, dynWat := none, staWat := none, mudPrs := none, buo := none,
    written := [], plotted := [] }

/-- Embedding of Dam.__init__ of dam_cls.py. The constructor itself performs
no validation; the only failure mode is the construction of
interp1d(x=self.y, y=self.x), which requires the two arrays to have equal
length and at least two entries. No monotonicity check exists anywhere. -/
def damInit (sec : DamSection) : Except DamErr DamState :=
  if sec.y.length = sec.x.length ∧ 2 ≤ sec.y.length then Except.ok (initState sec)
  else Except.error (DamErr.valueError
    "interp1d requires x and y arrays of equal length with at least 2 entries")

/-- Effect of the Dynamic branch of cal_load: compute, store, then plot and
write when the flags are on. -/
noncomputable def setDyn (num : Nat) (wr pl : Bool) (s : DamState) : DamState :=
  { s with dynWat := some (dynProfile s.sec num),
           plotted := if pl then s.plotted ++ [s.sec.name ++ "_Dynamic_Water_Pressure.png"]
                      else s.plotted,
           written := if wr then s.written ++ [s.sec.name ++ "_Dynamic_Water_Pressure.csv"]
                      else s.written }

/-- Effect of the Static branch of cal_load. -/
def setStatic (num : Nat) (wr pl : Bool) (s : DamState) : DamState :=
  { s with staWat := some (staProfile s.sec num),
           plotted := if pl then s.plotted ++ [s.sec.name ++ "_Static_Water_Pressure.png"]
                      else s.plotted,
           written := if wr then s.written ++ [s.sec.name ++ "_Static_Water_Pressure.csv"]
                      else s.written }

/-- Effect of the Buoyancy branch of cal_load. -/
def setBuo (num : Nat) (wr pl : Bool) (s : DamState) : DamState :=
  { s with buo := some (buoProfile s.sec num),
           plotted := if pl then s.plotted ++ [s.sec.name ++ "_Buoyancy.png"] else s.plotted,
           written := if wr then s.written ++ [s.sec.name ++ "_Buoyancy.csv"] else s.written }

/-- The ValueError message raised by cal_load on an unrecognized load name. -/
def loadNamesMsg : String :=
  "\x27load_names\x27 should be a str list which contains \x27Dynamic\x27, \x27Static\x27, \x27Mud\x27 or \x27Buoyancy\x27."

/-- The TypeError raised inside the Mud branch: Dam.__cal_mud calls
sp.mud(x, y, h=..., w=..., ce=..., mesh_size=1.0), but side_prs.mud accepts no
mesh_size keyword, so Python raises this TypeError before anything is stored. -/
def mudMsg : String := "mud() got an unexpected keyword argument \x27mesh_size\x27"

/-- Embedding of the dispatch loop of Dam.cal_load of dam_cls.py. Each branch
mutates the state; an exception aborts the loop, returning the state reached so
far together with the error (Python keeps the mutations made before a raise).
The Mud branch raises TypeError at the sp.mud call (see mudMsg), so it returns
the state unchanged. -/
noncomputable def calLoadGo (num : Nat) (wr pl : Bool) : DamState → List String → DamState × Option DamErr
  | s, [] => (s, none)
  | s, n :: rest =>
    if n = "Dynamic" then calLoadGo num wr pl (setDyn num wr pl s) rest
    else if n = "Static" then calLoadGo num wr pl (setStatic num wr pl s) rest
    else if n = "Mud" then (s, some (DamErr.typeError mudMsg))
    else if n = "Buoyancy" then calLoadGo num wr pl (setBuo num wr pl s) rest
    else (s, some (DamErr.valueError loadNamesMsg))

/-- Embedding of Dam.cal_dyn_water of the legacy DamClass.py: same sampling as
the engine, but the slope angles stay in radians (no rad2deg call), there is no
zero-vertical-run guard, and the stored position row is the depth rather than
the height. -/
noncomputable def calDynWaterDC (x y : List ℚ) (dep k w : ℚ) (num : Nat) : List ℚ × List ℝ :=
  let hs := linspace (y.headD 0) dep num
  let xs := hs.map (fun v => interp1 (sortPairs (y.zip x)) v)
  let xr := xs.map (fun q => (q : ℝ))
  let hr := hs.map (fun q => (q : ℝ))
  let slant0 := List.zipWith (fun a b => Real.arctan (a / b)) (npDiff xr) (npDiff hr)
  let slant := slant0 ++ [slant0.getLastD 0]
  let cmv := slant.map zanger_cmR
  let depth := depthBelowSurface dep hs
  (depth, List.zipWith (fun c d => zanger c (d : ℝ) (dep : ℝ) (k : ℝ) (w : ℝ))
            cmv (depth.map (fun q => (q : ℝ))))

/-- The Kamitsu dam of example.py (all decimal parameters written as exact
fractions: 4.9 = 49/10, 63.5 = 635/10, 58.5 = 585/10, 0.14 = 14/100). -/
def exampleSec : DamSection :=
  { name := "Kamitsu", x := [0, 49/10, 49/10], y := [0, 20, 635/10], length := 56,
    locDrain := none, depUp := 585/10, depDown := 0, depMud := 25, k := 14/100,
    w0 := 98/10, wMud := 10, ce := 5/10 }

/-- The engine state right after constructing the Kamitsu dam. -/
def exampleState : DamState := initState exampleSec

/-- A small section with a 45-degree upstream face, used to compare the two
Dam implementations on identical parameters. -/
def secEq : DamSection :=
  { name := "eq", x := [0, 1], y := [0, 1], length := 1, locDrain := none,
    depUp := 1, depDown := 0, depMud := 1, k := 1, w0 := 98/10, wMud := 10, ce := 5/10 }

/-- Strict monotonicity of a height sequence (increasing or decreasing). -/
def strictlyMonotonic (l : List ℚ) : Prop := l.Chain' (· < ·) ∨ l.Chain' (· > ·)

/-- A section whose height samples are not monotonic (y goes 0, 1, 0). -/
def nonMonoSec : DamSection :=
  { name := "d", x := [0, 0, 0], y := [0, 1, 0], length := 1, locDrain := none,
    depUp := 1, depDown := 0, depMud := 1, k := 1, w0 := 98/10, wMud := 10, ce := 5/10 }

/-- Substring test on character lists (used to state that an error message
enumerates the accepted load kinds). -/
def hasSub (needle : List Char) : List Char → Bool
  | [] => needle.isEmpty
  | c :: rest => needle.isPrefixOf (c :: rest) || hasSub needle rest

/- ---------- basic lemmas about the interpolation ---------- -/

theorem interp1_cons_le {A : Type} [LinearOrderedField A] (p q : A × A)
    (rest : List (A × A)) (t : A) (h : t ≤ q.1) :
    interp1 (p :: q :: rest) t = p.2 + (t - p.1) * (q.2 - p.2) / (q.1 - p.1) := by
  simp [interp1, h]

theorem interp1_cons_gt {A : Type} [LinearOrderedField A] (p q : A × A)
    (rest : List (A × A)) (t : A) (h : ¬ t ≤ q.1) :
    interp1 (p :: q :: rest) t = interp1 (q :: rest) t := by
  simp [interp1, h]

/-- On a breakpoint list whose first components are strictly increasing, the
interpolation evaluated between an adjacent pair of breakpoints is given by the
linear segment through that pair. -/
theorem interp1_adj {A : Type} [LinearOrderedField A] :
    ∀ (l : List (A × A)), l.Pairwise (fun p q => p.1 < q.1) →
    ∀ pq ∈ l.zip l.tail, ∀ t : A, pq.1.1 < t → t ≤ pq.2.1 →
    interp1 l t = pq.1.2 + (t - pq.1.1) * (pq.2.2 - pq.1.2) / (pq.2.1 - pq.1.1)
  | [], _, pq, hmem, _, _, _ => by simp at hmem
  | [p], _, pq, hmem, _, _, _ => by simp at hmem
  | p :: q :: rest, hl, pq, hmem, t, h1, h2 => by
    rcases List.mem_cons.mp hmem with heq | hmem'
    · subst heq
      exact interp1_cons_le p q rest t h2
    · have hq1 : q.1 < t := by
        have hfst := (List.of_mem_zip hmem').1
        rcases List.mem_cons.mp hfst with hfq | hfr
        · exact hfq ▸ h1
        · have := (List.pairwise_cons.mp (List.pairwise_cons.mp hl).2).1 pq.1 hfr
          exact lt_trans this h1
      rw [interp1_cons_gt p q rest t (not_le.mpr hq1)]
      exact interp1_adj (q :: rest) (List.pairwise_cons.mp hl).2 pq hmem' t h1 h2

/-- The value of a linear segment strictly between its endpoints lies strictly
between the endpoint values (stated for a decreasing segment). -/
theorem seg_strict {A : Type} [LinearOrderedField A] (a b ca cb t : A)
    (hab : a < b) (hc : cb < ca) (h1 : a < t) (h2 : t < b) :
    cb < ca + (t - a) * (cb - ca) / (b - a) ∧ ca + (t - a) * (cb - ca) / (b - a) < ca := by
  have hba : (0 : A) < b - a := sub_pos.mpr hab
  have key1 : ca + (t - a) * (cb - ca) / (b - a) - cb = (ca - cb) * (b - t) / (b - a) := by
    field_simp
    ring
  have key2 : ca - (ca + (t - a) * (cb - ca) / (b - a)) = (ca - cb) * (t - a) / (b - a) := by
    field_simp
    ring
  constructor
  · have hpos : 0 < (ca - cb) * (b - t) / (b - a) :=
      div_pos (mul_pos (sub_pos.mpr hc) (sub_pos.mpr h2)) hba
    linarith [key1]
  · have hpos : 0 < (ca - cb) * (t - a) / (b - a) :=
      div_pos (mul_pos (sub_pos.mpr hc) (sub_pos.mpr h1)) hba
    linarith [key2]

/-- The sorted Zanger breakpoint table, computed explicitly. -/
theorem zangerTable_eq :
    zangerTable = [(0, 72/100), (10, 67/100), (20, 62/100), (30, 55/100), (40, 48/100),
                   (50, 4/10), (60, 31/100), (70, 225/1000), (80, 125/1000), (90, 25/1000)] := by
  norm_num [zangerTable, zangerPoints, exprSlant, exprCm, sortPairs, insertPair]

/-- Claim C5: the slope-coefficient lookup reproduces the Zanger curve exactly:
each tabulated angle returns exactly the tabulated coefficient, and every angle
strictly between two adjacent breakpoints yields a value strictly between the
two bounding tabulated coefficients. -/
theorem c5_zanger_cm_table :
    (∀ p ∈ zangerPoints, zanger_cmQ p.1 = p.2) ∧
    (∀ pq ∈ zangerTable.zip zangerTable.tail, ∀ t : ℚ,
      pq.1.1 < t → t < pq.2.1 → pq.2.2 < zanger_cmQ t ∧ zanger_cmQ t < pq.1.2) := by
  constructor
  · intro p hp
    fin_cases hp <;> norm_num [zanger_cmQ, zangerTable_eq, interp1]
  · intro pq hmem t h1 h2
    have hval : zanger_cmQ t =
        pq.1.2 + (t - pq.1.1) * (pq.2.2 - pq.1.2) / (pq.2.1 - pq.1.1) :=
      interp1_adj zangerTable
        (by rw [zangerTable_eq]; norm_num [List.pairwise_cons]) pq hmem t h1 (le_of_lt h2)
    rw [hval]
    have hlt : pq.1.1 < pq.2.1 := lt_trans h1 h2
    have hcoef : pq.2.2 < pq.1.2 := by
      rw [zangerTable_eq] at hmem
      fin_cases hmem <;> norm_num
    exact seg_strict pq.1.1 pq.2.1 pq.1.2 pq.2.2 t hlt hcoef h1 h2

/-- Witness for C5 at the concrete angle 45, between the breakpoints 40 and 50. -/
theorem c5_zanger_cm_table_witness :
    ((40 : ℚ), (48/100 : ℚ)) ∈ zangerTable ∧
    ((4/10 : ℚ) < zanger_cmQ 45 ∧ zanger_cmQ 45 < 48/100) := by
  refine ⟨by rw [zangerTable_eq]; norm_num, ?_⟩
  exact c5_zanger_cm_table.2 (((40 : ℚ), (48/100 : ℚ)), ((50 : ℚ), (4/10 : ℚ)))
    (by rw [zangerTable_eq]; norm_num) 45 (by norm_num) (by norm_num)

/-- Claim C2, counterexample: with hu=1, hd=0, L=1, w=1, offset=1 and no
drain, the upstream control pressure pd + (1/3)*offset*(pu - pd) claimed by
the spec would be 1/3, but the code computes pd + 0.3333*offset*(pu - pd). -/
theorem c2_third_counterexample :
    (buoyancy 1 0 1 none 1 1).2.headI ≠ 1/3 := by
  norm_num [buoyancy]

/-- Claim C2 as amended: the no-drain profile has exactly the two control
points (0, pd + 0.3333*offset*(pu - pd)) and (L, pd); the drain profile has
exactly the three control points (0, pu), (a, pd + 0.2*offset*(pu - pd)) and
(L, pd); between control points the returned function interpolates linearly. -/
theorem c2_buoyancy_profiles (hu hd L a w offset : ℚ)
    (hL : 0 < L) (ha : 0 < a) (haL : a < L) :
    buoyancy hu hd L none w offset =
      ([0, L], [hd*w + 3333/10000 * offset * (hu*w - hd*w), hd*w]) ∧
    buoyancy hu hd L (some a) w offset =
      ([0, a, L], [hu*w, hd*w + 2/10 * offset * (hu*w - hd*w), hd*w]) ∧
    (∀ t, t ≤ L → buoyancyF hu hd L none w offset t =
      (hd*w + 3333/10000 * offset * (hu*w - hd*w)) +
        (t - 0) * (hd*w - (hd*w + 3333/10000 * offset * (hu*w - hd*w))) / (L - 0)) ∧
    (∀ t, t ≤ a → buoyancyF hu hd L (some a) w offset t =
      hu*w + (t - 0) * ((hd*w + 2/10 * offset * (hu*w - hd*w)) - hu*w) / (a - 0)) ∧
    (∀ t, a < t → t ≤ L → buoyancyF hu hd L (some a) w offset t =
      (hd*w + 2/10 * offset * (hu*w - hd*w)) +
        (t - a) * (hd*w - (hd*w + 2/10 * offset * (hu*w - hd*w))) / (L - a)) := by
  refine ⟨rfl, rfl, ?_, ?_, ?_⟩
  · intro t ht
    have := interp1_cons_le ((0 : ℚ), hd*w + 3333/10000 * offset * (hu*w - hd*w))
      ((L : ℚ), hd*w) [] t ht
    simpa [buoyancyF, buoyancy] using this
  · intro t ht
    have := interp1_cons_le ((0 : ℚ), hu*w)
      ((a : ℚ), hd*w + 2/10 * offset * (hu*w - hd*w)) [((L : ℚ), hd*w)] t ht
    simpa [buoyancyF, buoyancy] using this
  · intro t ht1 ht2
    have hgt := interp1_cons_gt ((0 : ℚ), hu*w)
      ((a : ℚ), hd*w + 2/10 * offset * (hu*w - hd*w)) [((L : ℚ), hd*w)] t
      (not_le.mpr ht1)
    have hle := interp1_cons_le ((a : ℚ), hd*w + 2/10 * offset * (hu*w - hd*w))
      ((L : ℚ), hd*w) [] t ht2
    simpa [buoyancyF, buoyancy, hle] using hgt

/-- Witness for C2 at hu=1, hd=0, L=2, a=1, w=1, offset=1. -/
theorem c2_buoyancy_profiles_witness :
    (0 : ℚ) < 2 ∧ (0 : ℚ) < 1 ∧ (1 : ℚ) < 2 ∧
    buoyancy 1 0 2 none 1 1 =
      ([0, 2], [0*1 + 3333/10000 * 1 * (1*1 - 0*1), 0*1]) := by
  exact ⟨by norm_num, by norm_num, by norm_num,
    (c2_buoyancy_profiles 1 0 2 1 1 1 (by norm_num) (by norm_num) (by norm_num)).1⟩

/-- Claim C3: for h > 0 the Zanger pressure at depth d equals
cm * 0.5*(r2 + sqrt(r2)) * w * k * h with r2 = (d/h)*(2 - d/h), and at the
surface (d = 0) the pressure is 0. -/
theorem c3_zanger_formula (cm d h k w : ℝ) (hh : 0 < h) :
    zanger cm d h k w =
      cm * (0.5 * ((d/h * (2 - d/h)) + Real.sqrt (d/h * (2 - d/h)))) * w * k * h ∧
    zanger cm 0 h k w = 0 := by
  constructor
  · simp only [zanger]
  · simp [zanger]

/-- Witness for C3 at cm = 1, d = 0, h = 1, k = 1, w = 1. -/
theorem c3_zanger_formula_witness :
    (0 : ℝ) < 1 ∧
    (zanger 1 0 1 1 1 =
      1 * (0.5 * ((0/1 * (2 - 0/1)) + Real.sqrt (0/1 * (2 - 0/1)))) * 1 * 1 * 1 ∧
     zanger 1 0 1 1 1 = 0) := by
  exact ⟨by norm_num, c3_zanger_formula 1 0 1 1 1 (by norm_num)⟩

/-- Claim C6, counterexample: at cm=1, d=3, h=1, k=1, w=1 the sample depth
exceeds the total depth and drives the square-root argument negative, yet the
computation returns normally instead of failing with an error. -/
theorem c6_counterexample :
    zangerRun 1 3 1 1 1 = Except.ok (zanger 1 3 1 1 1) ∧
    ((3 : ℝ)/1) * (2 - 3/1) < 0 := by
  exact ⟨rfl, by norm_num⟩

/-- Claim C6 as amended: zanger performs no domain check and raises no error.
For d > 2h the square-root argument r2 = (d/h)*(2 - d/h) is negative (np.sqrt
then yields NaN silently); the computation still returns. -/
theorem c6_no_domain_check (cm d h k w : ℝ) (hh : 0 < h) (hd2 : 2*h < d) :
    (d/h) * (2 - d/h) < 0 ∧ zangerRun cm d h k w = Except.ok (zanger cm d h k w) := by
  constructor
  · have h2 : (2 : ℝ) < d / h := (lt_div_iff₀ hh).mpr (by linarith)
    have h0 : (0 : ℝ) < d / h := lt_trans two_pos h2
    exact mul_neg_of_pos_of_neg h0 (by linarith)
  · rfl

/-- Witness for C6 at cm = 1, d = 3, h = 1, k = 1, w = 1. -/
theorem c6_no_domain_check_witness :
    (0 : ℝ) < 1 ∧ 2*1 < (3 : ℝ) ∧
    (((3 : ℝ)/1) * (2 - 3/1) < 0 ∧ zangerRun 1 3 1 1 1 = Except.ok (zanger 1 3 1 1 1)) := by
  exact ⟨by norm_num, by norm_num, c6_no_domain_check 1 3 1 1 1 (by norm_num) (by norm_num)⟩

/- ---------- evaluation lemmas for concrete inputs ---------- -/

theorem linspace_twoQ (a b : ℚ) : linspace a b 2 = [a, b] := by
  simp [linspace, List.range_succ]
  ring

theorem deg2rad_rad2deg (x : ℝ) : deg2rad (rad2deg x) = x := by
  simp [deg2rad, rad2deg]
  field_simp

theorem rad2deg_pi_div_four : rad2deg (Real.pi/4) = 45 := by
  simp [rad2deg]
  field_simp
  ring

theorem deg2rad_45 : deg2rad (45 : ℝ) = Real.pi/4 := by
  simp [deg2rad]
  ring

theorem calSlant_unit : cal_slant [0, 1] [0, 1] = [45, 45] := by
  simp [cal_slant, npDiff, Real.arctan_one, rad2deg_pi_div_four]

theorem zanger_one (cm w : ℝ) : zanger cm 1 1 1 w = cm * w := by
  norm_num [zanger, Real.sqrt_one]

theorem zangerTableR_eq :
    zangerTableR = [((0:ℝ), 72/100), (10, 67/100), (20, 62/100), (30, 55/100), (40, 48/100),
                    (50, 4/10), (60, 31/100), (70, 225/1000), (80, 125/1000), (90, 25/1000)] := by
  rw [zangerTableR, zangerTable_eq]
  norm_num

theorem zangerTableR_pairwise : zangerTableR.Pairwise (fun p q => p.1 < q.1) := by
  rw [zangerTableR_eq]
  norm_num [List.pairwise_cons]

theorem zanger_cmR_45 : zanger_cmR 45 = 11/25 := by
  have h := interp1_adj zangerTableR zangerTableR_pairwise
    (((40:ℝ), 48/100), ((50:ℝ), 4/10))
    (by rw [zangerTableR_eq]; norm_num) 45 (by norm_num) (by norm_num)
  rw [zanger_cmR, h]
  norm_num

theorem zanger_cmR_pi4 : zanger_cmR (Real.pi/4) = 72/100 - Real.pi/800 := by
  have hpi4 : (0:ℝ) < Real.pi/4 := by positivity
  have hle : Real.pi/4 ≤ 10 := by nlinarith [Real.pi_le_four]
  have h := interp1_adj zangerTableR zangerTableR_pairwise
    (((0:ℝ), 72/100), ((10:ℝ), 67/100))
    (by rw [zangerTableR_eq]; norm_num) (Real.pi/4) hpi4 hle
  rw [zanger_cmR, h]
  ring

theorem faceTable_secEq : faceTable secEq = [(0, 0), (1, 1)] := by
  norm_num [faceTable, secEq, sortPairs, insertPair]

theorem slopeAt_secEq_0 : slopeAt secEq 0 = 0 := by
  norm_num [slopeAt, faceTable_secEq, interp1]

theorem slopeAt_secEq_1 : slopeAt secEq 1 = 1 := by
  norm_num [slopeAt, faceTable_secEq, interp1]

theorem dynProfile_secEq_head : (dynProfile secEq 2).2.headI = 11/25 * (98/10 : ℝ) := by
  have hy : secEq.y = [0, 1] := rfl
  have hdep : secEq.depUp = 1 := rfl
  have hk : secEq.k = 1 := rfl
  have hw : secEq.w0 = 98/10 := rfl
  norm_num [dynProfile, hy, hdep, hk, hw, linspace_twoQ, slopeAt_secEq_0, slopeAt_secEq_1,
    dyn_w, calSlant_unit, zanger_cmR_45, zanger_one]

theorem calDynWaterDC_secEq_head :
    (calDynWaterDC secEq.x secEq.y secEq.depUp secEq.k secEq.w0 2).2.headI
      = (72/100 - Real.pi/800) * (98/10 : ℝ) := by
  have hx : secEq.x = [0, 1] := rfl
  have hy : secEq.y = [0, 1] := rfl
  have hdep : secEq.depUp = 1 := rfl
  have hk : secEq.k = 1 := rfl
  have hw : secEq.w0 = 98/10 := rfl
  have hsort : sortPairs ([((0 : ℚ), (0 : ℚ)), (1, 1)]) = [(0, 0), (1, 1)] := by
    norm_num [sortPairs, insertPair]
  have i0 : interp1 [((0 : ℚ), 0), (1, 1)] 0 = 0 := by norm_num [interp1]
  have i1 : interp1 [((0 : ℚ), 0), (1, 1)] 1 = 1 := by norm_num [interp1]
  norm_num [calDynWaterDC, hx, hy, hdep, hk, hw, linspace_twoQ, hsort, i0, i1,
    depthBelowSurface, npDiff, Real.arctan_one, zanger_cmR_pi4, zanger_one,
    -Prod.mk_zero_zero, -Prod.mk_one_one]

theorem mud_unit : mud [0, 1] [0, 1] 1 12 (1/2) = [Real.sqrt 90, 0] := by
  have h2 : Real.sqrt 2 ^ 2 = 2 := Real.sq_sqrt (by norm_num)
  norm_num [mud, calSlant_unit, deg2rad_45, Real.sin_pi_div_four, Real.cos_pi_div_four]
  congr 1
  nlinarith [h2]

/-- Claim C1, code-bug evidence: side_prs.mud returns one single profile, the
combined resultant magnitude. On the 45-degree face with h=1, w=12, ce=1/2 the
first sample value is sqrt 90, which differs both from the claimed horizontal
component ce*w*d*cos(theta) = 3*sqrt 2 and from the claimed sign-flipped
vertical component -(w*d*sin(theta)) = -6*sqrt 2. Moreover the engine Mud
branch aborts with the TypeError of the sp.mud call (unexpected mesh_size
keyword), so no two-profile result is ever stored. -/
theorem c1_mud_single_profile :
    mud [0, 1] [0, 1] 1 12 (1/2) = [Real.sqrt 90, 0] ∧
    Real.sqrt 90 ≠ 1/2 * 12 * 1 * Real.cos (Real.pi/4) ∧
    Real.sqrt 90 ≠ -(12 * 1 * Real.sin (Real.pi/4)) ∧
    (calLoadGo 2 true true exampleState ["Mud"]).2 = some (DamErr.typeError mudMsg) := by
  have h90 : (9 : ℝ) < Real.sqrt 90 := by
    have h := Real.lt_sqrt (x := 9) (y := 90) (by norm_num)
    exact h.mpr (by norm_num)
  have hs2 : Real.sqrt 2 < 3/2 := by
    have h := Real.sqrt_lt' (x := 2) (y := 3/2) (by norm_num)
    exact h.mpr (by norm_num)
  refine ⟨mud_unit, ?_, ?_, rfl⟩
  · rw [Real.cos_pi_div_four]
    intro heq
    nlinarith [h90, hs2]
  · rw [Real.sin_pi_div_four]
    intro heq
    nlinarith [h90, Real.sqrt_nonneg 2]

/-- Claim C4, counterexample: for the concrete section secEq with two samples
at heights 0 and 1 and water depth 1, the stored position row of the engine is
[0, 1] (the sample heights), not the depths [1, 0]. -/
theorem c4_position_counterexample :
    (dynProfile secEq 2).1 ≠
      depthBelowSurface secEq.depUp (linspace (secEq.y.headD 0) secEq.depUp 2) := by
  have hy : secEq.y = [0, 1] := rfl
  have hdep : secEq.depUp = 1 := rfl
  norm_num [dynProfile, hy, hdep, linspace_twoQ, depthBelowSurface]

/-- Claim C4 as amended: the engine dam_cls stores the sampled heights
themselves as the position row of the dynamic profile (and the export header
calls the column Height); the depth-below-surface position convention appears
only in the legacy DamClass.py, whose stored position row is exactly the
depth. -/
theorem c4_position_amended (sec : DamSection) (num : Nat) :
    (dynProfile sec num).1 = linspace (sec.y.headD 0) sec.depUp num ∧
    (calDynWaterDC sec.x sec.y sec.depUp sec.k sec.w0 num).1 =
      depthBelowSurface sec.depUp (linspace (sec.y.headD 0) sec.depUp num) :=
  ⟨rfl, rfl⟩

/-- Claim C9, counterexample: identical parameters (45-degree face through
(0,0) and (1,1), water depth 1, k = 1, w = 9.8, two samples) give different
dynamic pressures in the two Dam implementations. -/
theorem c9_pressures_differ_counterexample :
    (dynProfile secEq 2).2.headI ≠
      (calDynWaterDC secEq.x secEq.y secEq.depUp secEq.k secEq.w0 2).2.headI := by
  rw [dynProfile_secEq_head, calDynWaterDC_secEq_head]
  intro heq
  nlinarith [Real.pi_lt_d2]

/-- Claim C9 as amended: the two implementations do not agree; dam_cls converts
the slope angle to degrees before the Zanger coefficient lookup (coefficient
0.44 = 11/25 on the 45-degree face), while the legacy DamClass.py feeds the
angle in radians into the same degree-keyed table (coefficient
0.72 - pi/800), so the bottom-sample pressures are 0.44*9.8 and
(0.72 - pi/800)*9.8 respectively. -/
theorem c9_two_pipelines :
    (dynProfile secEq 2).2.headI = 11/25 * (98/10 : ℝ) ∧
    (calDynWaterDC secEq.x secEq.y secEq.depUp secEq.k secEq.w0 2).2.headI
      = (72/100 - Real.pi/800) * (98/10 : ℝ) :=
  ⟨dynProfile_secEq_head, calDynWaterDC_secEq_head⟩

/- ---------- lemmas about the cal_load dispatch loop ---------- -/

theorem setDyn_sec (num : Nat) (wr pl : Bool) (s : DamState) :
    (setDyn num wr pl s).sec = s.sec := rfl

theorem setStatic_sec (num : Nat) (wr pl : Bool) (s : DamState) :
    (setStatic num wr pl s).sec = s.sec := rfl

theorem setBuo_sec (num : Nat) (wr pl : Bool) (s : DamState) :
    (setBuo num wr pl s).sec = s.sec := rfl

theorem setDyn_written_mem (num : Nat) (wr pl : Bool) (s : DamState) (a : String)
    (ha : a ∈ s.written) : a ∈ (setDyn num wr pl s).written := by
  cases wr <;> simp [setDyn, ha]

theorem setStatic_written_mem (num : Nat) (wr pl : Bool) (s : DamState) (a : String)
    (ha : a ∈ s.written) : a ∈ (setStatic num wr pl s).written := by
  cases wr <;> simp [setStatic, ha]

theorem setBuo_written_mem (num : Nat) (wr pl : Bool) (s : DamState) (a : String)
    (ha : a ∈ s.written) : a ∈ (setBuo num wr pl s).written := by
  cases wr <;> simp [setBuo, ha]

theorem setDyn_plotted_mem (num : Nat) (wr pl : Bool) (s : DamState) (a : String)
    (ha : a ∈ s.plotted) : a ∈ (setDyn num wr pl s).plotted := by
  cases pl <;> simp [setDyn, ha]

theorem setStatic_plotted_mem (num : Nat) (wr pl : Bool) (s : DamState) (a : String)
    (ha : a ∈ s.plotted) : a ∈ (setStatic num wr pl s).plotted := by
  cases pl <;> simp [setStatic, ha]

theorem setBuo_plotted_mem (num : Nat) (wr pl : Bool) (s : DamState) (a : String)
    (ha : a ∈ s.plotted) : a ∈ (setBuo num wr pl s).plotted := by
  cases pl <;> simp [setBuo, ha]

/-- Invariants of the dispatch loop: the section parameters never change, each
result slot is either untouched or holds the profile computed from the (fixed)
section, and the written and plotted file lists only grow. -/
theorem calLoadGo_state (num : Nat) (wr pl : Bool) (l : List String) :
    ∀ s : DamState,
      ((calLoadGo num wr pl s l).1.sec = s.sec) ∧
      ((calLoadGo num wr pl s l).1.dynWat = s.dynWat ∨
        (calLoadGo num wr pl s l).1.dynWat = some (dynProfile s.sec num)) ∧
      ((calLoadGo num wr pl s l).1.staWat = s.staWat ∨
        (calLoadGo num wr pl s l).1.staWat = some (staProfile s.sec num)) ∧
      ((calLoadGo num wr pl s l).1.buo = s.buo ∨
        (calLoadGo num wr pl s l).1.buo = some (buoProfile s.sec num)) ∧
      (∀ a ∈ s.written, a ∈ (calLoadGo num wr pl s l).1.written) ∧
      (∀ a ∈ s.plotted, a ∈ (calLoadGo num wr pl s l).1.plotted) := by
  induction l with
  | nil =>
    intro s
    exact ⟨rfl, Or.inl rfl, Or.inl rfl, Or.inl rfl, fun a ha => ha, fun a ha => ha⟩
  | cons n rest ih =>
    intro s
    by_cases h1 : n = "Dynamic"
    · have := ih (setDyn num wr pl s)
      simp only [calLoadGo, if_pos h1]
      obtain ⟨hsec, hdyn, hsta, hbuo, hwr, hpl⟩ := this
      refine ⟨hsec, ?_, ?_, ?_, ?_, ?_⟩
      · rcases hdyn with h | h
        · exact Or.inr h
        · exact Or.inr h
      · exact hsta
      · exact hbuo
      · exact fun a ha => hwr a (setDyn_written_mem num wr pl s a ha)
      · exact fun a ha => hpl a (setDyn_plotted_mem num wr pl s a ha)
    · by_cases h2 : n = "Static"
      · have := ih (setStatic num wr pl s)
        simp only [calLoadGo, if_neg h1, if_pos h2]
        obtain ⟨hsec, hdyn, hsta, hbuo, hwr, hpl⟩ := this
        refine ⟨hsec, hdyn, ?_, hbuo, ?_, ?_⟩
        · rcases hsta with h | h
          · exact Or.inr h
          · exact Or.inr h
        · exact fun a ha => hwr a (setStatic_written_mem num wr pl s a ha)
        · exact fun a ha => hpl a (setStatic_plotted_mem num wr pl s a ha)
      · by_cases h3 : n = "Mud"
        · simp [calLoadGo, if_neg h1, if_neg h2, if_pos h3]
        · by_cases h4 : n = "Buoyancy"
          · have := ih (setBuo num wr pl s)
            simp only [calLoadGo, if_neg h1, if_neg h2, if_neg h3, if_pos h4]
            obtain ⟨hsec, hdyn, hsta, hbuo, hwr, hpl⟩ := this
            refine ⟨hsec, hdyn, hsta, ?_, ?_, ?_⟩
            · rcases hbuo with h | h
              · exact Or.inr h
              · exact Or.inr h
            · exact fun a ha => hwr a (setBuo_written_mem num wr pl s a ha)
            · exact fun a ha => hpl a (setBuo_plotted_mem num wr pl s a ha)
          · simp [calLoadGo, if_neg h1, if_neg h2, if_neg h3, if_neg h4]

theorem setDyn_written_self (num : Nat) (pl : Bool) (s : DamState) :
    s.sec.name ++ "_Dynamic_Water_Pressure.csv" ∈ (setDyn num true pl s).written := by
  simp [setDyn]

theorem setStatic_written_self (num : Nat) (pl : Bool) (s : DamState) :
    s.sec.name ++ "_Static_Water_Pressure.csv" ∈ (setStatic num true pl s).written := by
  simp [setStatic]

theorem setBuo_written_self (num : Nat) (pl : Bool) (s : DamState) :
    s.sec.name ++ "_Buoyancy.csv" ∈ (setBuo num true pl s).written := by
  simp [setBuo]

theorem setDyn_plotted_self (num : Nat) (wr : Bool) (s : DamState) :
    s.sec.name ++ "_Dynamic_Water_Pressure.png" ∈ (setDyn num wr true s).plotted := by
  simp [setDyn]

theorem setStatic_plotted_self (num : Nat) (wr : Bool) (s : DamState) :
    s.sec.name ++ "_Static_Water_Pressure.png" ∈ (setStatic num wr true s).plotted := by
  simp [setStatic]

theorem setBuo_plotted_self (num : Nat) (wr : Bool) (s : DamState) :
    s.sec.name ++ "_Buoyancy.png" ∈ (setBuo num wr true s).plotted := by
  simp [setBuo]

/-- If every name in the prefix is a recognized kind other than Mud and the
next name is unrecognized, the loop reaches it and raises the ValueError. -/
theorem calLoadGo_error (num : Nat) (wr pl : Bool) (pre : List String) :
    ∀ (s : DamState) (post : List String) (bad : String),
      (∀ p ∈ pre, p = "Dynamic" ∨ p = "Static" ∨ p = "Buoyancy") →
      bad ≠ "Dynamic" → bad ≠ "Static" → bad ≠ "Mud" → bad ≠ "Buoyancy" →
      (calLoadGo num wr pl s (pre ++ bad :: post)).2 = some (DamErr.valueError loadNamesMsg) := by
  induction pre with
  | nil =>
    intro s post bad _ h1 h2 h3 h4
    simp only [List.nil_append, calLoadGo, if_neg h1, if_neg h2, if_neg h3, if_neg h4]
  | cons p pre ih =>
    intro s post bad hpre h1 h2 h3 h4
    have hpre' : ∀ q ∈ pre, q = "Dynamic" ∨ q = "Static" ∨ q = "Buoyancy" :=
      fun q hq => hpre q (List.mem_cons_of_mem p hq)
    rcases hpre p (List.mem_cons_self p pre) with hD | hS | hB
    · subst hD
      simp [calLoadGo]
      exact ih (setDyn num wr pl s) post bad hpre' h1 h2 h3 h4
    · subst hS
      simp [calLoadGo]
      exact ih (setStatic num wr pl s) post bad hpre' h1 h2 h3 h4
    · subst hB
      simp [calLoadGo]
      exact ih (setBuo num wr pl s) post bad hpre' h1 h2 h3 h4

/-- If the prefix is all recognized non-Mud kinds and contains Dynamic, the
dynamic slot of the final state holds the profile computed from the section. -/
theorem calLoadGo_slot_dyn (num : Nat) (wr pl : Bool) (pre : List String) :
    ∀ (s : DamState) (rest : List String),
      (∀ p ∈ pre, p = "Dynamic" ∨ p = "Static" ∨ p = "Buoyancy") →
      "Dynamic" ∈ pre →
      (calLoadGo num wr pl s (pre ++ rest)).1.dynWat = some (dynProfile s.sec num) := by
  induction pre with
  | nil => intro s rest _ hmem; simp at hmem
  | cons p pre ih =>
    intro s rest hpre hmem
    have hpre' : ∀ q ∈ pre, q = "Dynamic" ∨ q = "Static" ∨ q = "Buoyancy" :=
      fun q hq => hpre q (List.mem_cons_of_mem p hq)
    by_cases hpD : p = "Dynamic"
    · subst hpD
      simp [calLoadGo]
      rcases (calLoadGo_state num wr pl (pre ++ rest) (setDyn num wr pl s)).2.1 with h | h
      · exact h
      · exact h
    · have hmem' : "Dynamic" ∈ pre := by
        rcases List.mem_cons.mp hmem with h | h
        · exact absurd h.symm hpD
        · exact h
      rcases hpre p (List.mem_cons_self p pre) with hD | hS | hB
      · exact absurd hD hpD
      · subst hS
        simp [calLoadGo]
        exact ih (setStatic num wr pl s) rest hpre' hmem'
      · subst hB
        simp [calLoadGo]
        exact ih (setBuo num wr pl s) rest hpre' hmem'

/-- Same as calLoadGo_slot_dyn for the static slot. -/
theorem calLoadGo_slot_sta (num : Nat) (wr pl : Bool) (pre : List String) :
    ∀ (s : DamState) (rest : List String),
      (∀ p ∈ pre, p = "Dynamic" ∨ p = "Static" ∨ p = "Buoyancy") →
      "Static" ∈ pre →
      (calLoadGo num wr pl s (pre ++ rest)).1.staWat = some (staProfile s.sec num) := by
  induction pre with
  | nil => intro s rest _ hmem; simp at hmem
  | cons p pre ih =>
    intro s rest hpre hmem
    have hpre' : ∀ q ∈ pre, q = "Dynamic" ∨ q = "Static" ∨ q = "Buoyancy" :=
      fun q hq => hpre q (List.mem_cons_of_mem p hq)
    by_cases hpS : p = "Static"
    · subst hpS
      simp [calLoadGo]
      rcases (calLoadGo_state num wr pl (pre ++ rest) (setStatic num wr pl s)).2.2.1 with h | h
      · exact h
      · exact h
    · have hmem' : "Static" ∈ pre := by
        rcases List.mem_cons.mp hmem with h | h
        · exact absurd h.symm hpS
        · exact h
      rcases hpre p (List.mem_cons_self p pre) with hD | hS | hB
      · subst hD
        simp [calLoadGo]
        exact ih (setDyn num wr pl s) rest hpre' hmem'
      · exact absurd hS hpS
      · subst hB
        simp [calLoadGo]
        exact ih (setBuo num wr pl s) rest hpre' hmem'

/-- Same as calLoadGo_slot_dyn for the buoyancy slot. -/
theorem calLoadGo_slot_buo (num : Nat) (wr pl : Bool) (pre : List String) :
    ∀ (s : DamState) (rest : List String),
      (∀ p ∈ pre, p = "Dynamic" ∨ p = "Static" ∨ p = "Buoyancy") →
      "Buoyancy" ∈ pre →
      (calLoadGo num wr pl s (pre ++ rest)).1.buo = some (buoProfile s.sec num) := by
  induction pre with
  | nil => intro s rest _ hmem; simp at hmem
  | cons p pre ih =>
    intro s rest hpre hmem
    have hpre' : ∀ q ∈ pre, q = "Dynamic" ∨ q = "Static" ∨ q = "Buoyancy" :=
      fun q hq => hpre q (List.mem_cons_of_mem p hq)
    by_cases hpB : p = "Buoyancy"
    · subst hpB
      simp [calLoadGo]
      rcases (calLoadGo_state num wr pl (pre ++ rest) (setBuo num wr pl s)).2.2.2.1 with h | h
      · exact h
      · exact h
    · have hmem' : "Buoyancy" ∈ pre := by
        rcases List.mem_cons.mp hmem with h | h
        · exact absurd h.symm hpB
        · exact h
      rcases hpre p (List.mem_cons_self p pre) with hD | hS | hB
      · subst hD
        simp [calLoadGo]
        exact ih (setDyn num wr pl s) rest hpre' hmem'
      · subst hS
        simp [calLoadGo]
        exact ih (setStatic num wr pl s) rest hpre' hmem'
      · exact absurd hB hpB

/-- If the prefix is all recognized non-Mud kinds and contains Dynamic, the
dynamic csv and png names are among the files written and plotted (when the
respective flags are on). -/
theorem calLoadGo_files_dyn (num : Nat) (wr pl : Bool) (pre : List String) :
    ∀ (s : DamState) (rest : List String),
      (∀ p ∈ pre, p = "Dynamic" ∨ p = "Static" ∨ p = "Buoyancy") →
      "Dynamic" ∈ pre →
      (wr = true →
        s.sec.name ++ "_Dynamic_Water_Pressure.csv" ∈ (calLoadGo num wr pl s (pre ++ rest)).1.written) ∧
      (pl = true →
        s.sec.name ++ "_Dynamic_Water_Pressure.png" ∈ (calLoadGo num wr pl s (pre ++ rest)).1.plotted) := by
  induction pre with
  | nil => intro s rest _ hmem; simp at hmem
  | cons p pre ih =>
    intro s rest hpre hmem
    have hpre' : ∀ q ∈ pre, q = "Dynamic" ∨ q = "Static" ∨ q = "Buoyancy" :=
      fun q hq => hpre q (List.mem_cons_of_mem p hq)
    by_cases hpD : p = "Dynamic"
    · subst hpD
      simp [calLoadGo]
      obtain ⟨-, -, -, -, hwr, hpl⟩ := calLoadGo_state num wr pl (pre ++ rest) (setDyn num wr pl s)
      constructor
      · intro h
        subst h
        exact hwr _ (setDyn_written_self num pl s)
      · intro h
        subst h
        exact hpl _ (setDyn_plotted_self num wr s)
    · have hmem' : "Dynamic" ∈ pre := by
        rcases List.mem_cons.mp hmem with h | h
        · exact absurd h.symm hpD
        · exact h
      rcases hpre p (List.mem_cons_self p pre) with hD | hS | hB
      · exact absurd hD hpD
      · subst hS
        simp [calLoadGo]
        exact ih (setStatic num wr pl s) rest hpre' hmem'
      · subst hB
        simp [calLoadGo]
        exact ih (setBuo num wr pl s) rest hpre' hmem'

/-- Same as calLoadGo_files_dyn for the Static kind. -/
theorem calLoadGo_files_sta (num : Nat) (wr pl : Bool) (pre : List String) :
    ∀ (s : DamState) (rest : List String),
      (∀ p ∈ pre, p = "Dynamic" ∨ p = "Static" ∨ p = "Buoyancy") →
      "Static" ∈ pre →
      (wr = true →
        s.sec.name ++ "_Static_Water_Pressure.csv" ∈ (calLoadGo num wr pl s (pre ++ rest)).1.written) ∧
      (pl = true →
        s.sec.name ++ "_Static_Water_Pressure.png" ∈ (calLoadGo num wr pl s (pre ++ rest)).1.plotted) := by
  induction pre with
  | nil => intro s rest _ hmem; simp at hmem
  | cons p pre ih =>
    intro s rest hpre hmem
    have hpre' : ∀ q ∈ pre, q = "Dynamic" ∨ q = "Static" ∨ q = "Buoyancy" :=
      fun q hq => hpre q (List.mem_cons_of_mem p hq)
    by_cases hpS : p = "Static"
    · subst hpS
      simp [calLoadGo]
      obtain ⟨-, -, -, -, hwr, hpl⟩ := calLoadGo_state num wr pl (pre ++ rest) (setStatic num wr pl s)
      constructor
      · intro h
        subst h
        exact hwr _ (setStatic_written_self num pl s)
      · intro h
        subst h
        exact hpl _ (setStatic_plotted_self num wr s)
    · have hmem' : "Static" ∈ pre := by
        rcases List.mem_cons.mp hmem with h | h
        · exact absurd h.symm hpS
        · exact h
      rcases hpre p (List.mem_cons_self p pre) with hD | hS | hB
      · subst hD
        simp [calLoadGo]
        exact ih (setDyn num wr pl s) rest hpre' hmem'
      · exact absurd hS hpS
      · subst hB
        simp [calLoadGo]
        exact ih (setBuo num wr pl s) rest hpre' hmem'

/-- Same as calLoadGo_files_dyn for the Buoyancy kind. -/
theorem calLoadGo_files_buo (num : Nat) (wr pl : Bool) (pre : List String) :
    ∀ (s : DamState) (rest : List String),
      (∀ p ∈ pre, p = "Dynamic" ∨ p = "Static" ∨ p = "Buoyancy") →
      "Buoyancy" ∈ pre →
      (wr = true →
        s.sec.name ++ "_Buoyancy.csv" ∈ (calLoadGo num wr pl s (pre ++ rest)).1.written) ∧
      (pl = true →
        s.sec.name ++ "_Buoyancy.png" ∈ (calLoadGo num wr pl s (pre ++ rest)).1.plotted) := by
  induction pre with
  | nil => intro s rest _ hmem; simp at hmem
  | cons p pre ih =>
    intro s rest hpre hmem
    have hpre' : ∀ q ∈ pre, q = "Dynamic" ∨ q = "Static" ∨ q = "Buoyancy" :=
      fun q hq => hpre q (List.mem_cons_of_mem p hq)
    by_cases hpB : p = "Buoyancy"
    · subst hpB
      simp [calLoadGo]
      obtain ⟨-, -, -, -, hwr, hpl⟩ := calLoadGo_state num wr pl (pre ++ rest) (setBuo num wr pl s)
      constructor
      · intro h
        subst h
        exact hwr _ (setBuo_written_self num pl s)
      · intro h
        subst h
        exact hpl _ (setBuo_plotted_self num wr s)
    · have hmem' : "Buoyancy" ∈ pre := by
        rcases List.mem_cons.mp hmem with h | h
        · exact absurd h.symm hpB
        · exact h
      rcases hpre p (List.mem_cons_self p pre) with hD | hS | hB
      · subst hD
        simp [calLoadGo]
        exact ih (setDyn num wr pl s) rest hpre' hmem'
      · subst hS
        simp [calLoadGo]
        exact ih (setStatic num wr pl s) rest hpre' hmem'
      · exact absurd hB hpB

/-- Claim C7, counterexample: the height sequence [0, 1, 0] is not strictly
monotonic, yet construction succeeds (returns the initialized state) instead
of failing with an InvalidArgument error. -/
theorem c7_nonmono_counterexample :
    ¬ strictlyMonotonic nonMonoSec.y ∧ damInit nonMonoSec = Except.ok (initState nonMonoSec) := by
  constructor
  · have hy : nonMonoSec.y = [0, 1, 0] := rfl
    rw [strictlyMonotonic, hy]
    simp [List.chain'_cons]
  · rfl

/-- Claim C7 as amended: Dam.__init__ performs no monotonicity validation at
all: any section whose x and y have equal length at least 2 (the only
constraint, coming from the interp1d construction) is accepted, monotonic or
not; no InvalidArgument error is raised. -/
theorem c7_init_no_validation (sec : DamSection)
    (hlen : sec.y.length = sec.x.length) (h2 : 2 ≤ sec.y.length) :
    damInit sec = Except.ok (initState sec) := by
  rw [damInit, if_pos ⟨hlen, h2⟩]

/-- Witness for C7 at the Kamitsu section of example.py. -/
theorem c7_init_no_validation_witness :
    exampleSec.y.length = exampleSec.x.length ∧ 2 ≤ exampleSec.y.length ∧
    damInit exampleSec = Except.ok (initState exampleSec) :=
  ⟨rfl, by decide, c7_init_no_validation exampleSec rfl (by decide)⟩

/-- Claim C8, counterexample: the list ["Mud", "Seepage"] contains the
unrecognized name "Seepage", but the call does not fail with the ValueError
that enumerates the accepted kinds: the Mud branch raises its TypeError
first. -/
theorem c8_mud_preempts_counterexample :
    (calLoadGo 2 true true exampleState ["Mud", "Seepage"]).2 = some (DamErr.typeError mudMsg) ∧
    some (DamErr.typeError mudMsg) ≠ some (DamErr.valueError loadNamesMsg) := by
  constructor
  · rfl
  · simp

/-- Claim C8 as amended: when every name before the first unrecognized one is a
recognized kind other than Mud (so that no TypeError preempts the loop), the
call fails with the ValueError whose message enumerates all four accepted load
kinds; a Mud entry earlier in the list instead aborts with a TypeError from
the sp.mud signature mismatch. -/
theorem c8_unrecognized_valueerror (s : DamState) (num : Nat) (wr pl : Bool)
    (pre post : List String) (bad : String)
    (hpre : ∀ p ∈ pre, p = "Dynamic" ∨ p = "Static" ∨ p = "Buoyancy")
    (h1 : bad ≠ "Dynamic") (h2 : bad ≠ "Static") (h3 : bad ≠ "Mud") (h4 : bad ≠ "Buoyancy") :
    (calLoadGo num wr pl s (pre ++ bad :: post)).2 = some (DamErr.valueError loadNamesMsg) ∧
    hasSub "Dynamic".data loadNamesMsg.data = true ∧
    hasSub "Static".data loadNamesMsg.data = true ∧
    hasSub "Mud".data loadNamesMsg.data = true ∧
    hasSub "Buoyancy".data loadNamesMsg.data = true := by
  refine ⟨calLoadGo_error num wr pl pre s post bad hpre h1 h2 h3 h4, ?_, ?_, ?_, ?_⟩
  · decide
  · decide
  · decide
  · decide

/-- Witness for C8: the Kamitsu engine state, load list ["Static", "Seepage"]. -/
theorem c8_unrecognized_valueerror_witness :
    (∀ p ∈ ["Static"], p = "Dynamic" ∨ p = "Static" ∨ p = "Buoyancy") ∧
    ("Seepage" : String) ≠ "Dynamic" ∧
    ((calLoadGo 2 true true exampleState (["Static"] ++ "Seepage" :: [])).2 =
        some (DamErr.valueError loadNamesMsg) ∧
      hasSub "Dynamic".data loadNamesMsg.data = true ∧
      hasSub "Static".data loadNamesMsg.data = true ∧
      hasSub "Mud".data loadNamesMsg.data = true ∧
      hasSub "Buoyancy".data loadNamesMsg.data = true) := by
  refine ⟨?_, by decide, ?_⟩
  · intro p hp
    simp at hp
    subst hp
    exact Or.inr (Or.inl rfl)
  · exact c8_unrecognized_valueerror exampleState 2 true true ["Static"] [] "Seepage"
      (by intro p hp; simp at hp; subst hp; exact Or.inr (Or.inl rfl))
      (by decide) (by decide) (by decide) (by decide)

/-- Claim C10: when cal_load fails on an unrecognized name (the prefix before
it contains only recognized non-Mud kinds, as any Mud entry would abort with a
TypeError before the unrecognized name is reached), every recognized kind of
the prefix has already been computed and stored on the returned state, its csv
exported and its png plotted when the respective flags are on, and nothing is
rolled back when the ValueError is raised. -/
theorem c10_partial_results (s : DamState) (num : Nat) (wr pl : Bool)
    (pre post : List String) (bad : String)
    (hpre : ∀ p ∈ pre, p = "Dynamic" ∨ p = "Static" ∨ p = "Buoyancy")
    (h1 : bad ≠ "Dynamic") (h2 : bad ≠ "Static") (h3 : bad ≠ "Mud") (h4 : bad ≠ "Buoyancy") :
    (calLoadGo num wr pl s (pre ++ bad :: post)).2 = some (DamErr.valueError loadNamesMsg) ∧
    ("Dynamic" ∈ pre →
      (calLoadGo num wr pl s (pre ++ bad :: post)).1.dynWat = some (dynProfile s.sec num)) ∧
    ("Static" ∈ pre →
      (calLoadGo num wr pl s (pre ++ bad :: post)).1.staWat = some (staProfile s.sec num)) ∧
    ("Buoyancy" ∈ pre →
      (calLoadGo num wr pl s (pre ++ bad :: post)).1.buo = some (buoProfile s.sec num)) ∧
    (wr = true → "Dynamic" ∈ pre →
      s.sec.name ++ "_Dynamic_Water_Pressure.csv" ∈ (calLoadGo num wr pl s (pre ++ bad :: post)).1.written) ∧
    (wr = true → "Static" ∈ pre →
      s.sec.name ++ "_Static_Water_Pressure.csv" ∈ (calLoadGo num wr pl s (pre ++ bad :: post)).1.written) ∧
    (wr = true → "Buoyancy" ∈ pre →
      s.sec.name ++ "_Buoyancy.csv" ∈ (calLoadGo num wr pl s (pre ++ bad :: post)).1.written) ∧
    (pl = true → "Dynamic" ∈ pre →
      s.sec.name ++ "_Dynamic_Water_Pressure.png" ∈ (calLoadGo num wr pl s (pre ++ bad :: post)).1.plotted) ∧
    (pl = true → "Static" ∈ pre →
      s.sec.name ++ "_Static_Water_Pressure.png" ∈ (calLoadGo num wr pl s (pre ++ bad :: post)).1.plotted) ∧
    (pl = true → "Buoyancy" ∈ pre →
      s.sec.name ++ "_Buoyancy.png" ∈ (calLoadGo num wr pl s (pre ++ bad :: post)).1.plotted) := by
  refine ⟨calLoadGo_error num wr pl pre s post bad hpre h1 h2 h3 h4,
    fun hm => calLoadGo_slot_dyn num wr pl pre s (bad :: post) hpre hm,
    fun hm => calLoadGo_slot_sta num wr pl pre s (bad :: post) hpre hm,
    fun hm => calLoadGo_slot_buo num wr pl pre s (bad :: post) hpre hm,
    fun hw hm => (calLoadGo_files_dyn num wr pl pre s (bad :: post) hpre hm).1 hw,
    fun hw hm => (calLoadGo_files_sta num wr pl pre s (bad :: post) hpre hm).1 hw,
    fun hw hm => (calLoadGo_files_buo num wr pl pre s (bad :: post) hpre hm).1 hw,
    fun hp hm => (calLoadGo_files_dyn num wr pl pre s (bad :: post) hpre hm).2 hp,
    fun hp hm => (calLoadGo_files_sta num wr pl pre s (bad :: post) hpre hm).2 hp,
    fun hp hm => (calLoadGo_files_buo num wr pl pre s (bad :: post) hpre hm).2 hp⟩

/-- Witness for C10: the Kamitsu engine state, prefix ["Static"], unrecognized
name "Seepage", with export and plotting enabled. -/
theorem c10_partial_results_witness :
    (∀ p ∈ ["Static"], p = "Dynamic" ∨ p = "Static" ∨ p = "Buoyancy") ∧
    ("Seepage" : String) ≠ "Mud" ∧
    ((calLoadGo 2 true true exampleState (["Static"] ++ "Seepage" :: [])).2 =
        some (DamErr.valueError loadNamesMsg) ∧
      ("Static" ∈ ["Static"] →
        (calLoadGo 2 true true exampleState (["Static"] ++ "Seepage" :: [])).1.staWat =
          some (staProfile exampleState.sec 2))) := by
  have hpre : ∀ p ∈ ["Static"], p = "Dynamic" ∨ p = "Static" ∨ p = "Buoyancy" := by
    intro p hp
    simp at hp
    subst hp
    exact Or.inr (Or.inl rfl)
  have h := c10_partial_results exampleState 2 true true ["Static"] [] "Seepage" hpre
    (by decide) (by decide) (by decide) (by decide)
  exact ⟨hpre, by decide, h.1, h.2.2.1⟩

/-- Witness for C4 at the concrete section secEq with two samples. -/
theorem c4_position_amended_witness :
    (dynProfile secEq 2).1 = linspace (secEq.y.headD 0) secEq.depUp 2 ∧
    (calDynWaterDC secEq.x secEq.y secEq.depUp secEq.k secEq.w0 2).1 =
      depthBelowSurface secEq.depUp (linspace (secEq.y.headD 0) secEq.depUp 2) :=
  c4_position_amended secEq 2
